import Mathlib

/-!
Shallow embedding of `src/storage.rs`: the in-memory registry mapping block
hashes to block state.

Modelling choices, uniform across the file:
* `HashMap<K, V, FnvBuildHasher>` is modelled as the function `K → Option V`
  (keys unique, insertion order irrelevant, hasher immaterial).
* `H256` (a 256-bit hash) is `Fin (2 ^ 256)`.
* `Vec<u8>` byte strings are `List (Fin 256)`.
* `Arc<BlockStorage>` is modelled by its content: cloning an `Arc` yields a
  handle to the same immutable content, and in the pure embedding values are
  immutable, so the content itself stands for the shared snapshot.
* `hashbrown::hash_map::Entry` (a pending lookup that has not inserted
  anything yet) is modelled by the pair of the registry and the hash; the
  deferred insertion happens only in `or_insert_with`, exactly as in the
  source.
* `Result<(), ()>` is `Except Unit Unit`; the `unimplemented!()` panic in
  `Block::header` is `Except.error ()`.
-/

namespace AvailLightStorage

/-- One byte of a key or value (`u8`). -/
abbrev Byte := Fin 256

/-- A byte string (`Vec<u8>`). -/
abbrev Bytes := List Byte

/-- A 256-bit block hash (`primitive_types::H256`). -/
abbrev H256 := Fin (2 ^ 256)

/-- `struct Child { trie: HashMap<Vec<u8>, Vec<u8>> }`. -/
structure Child where
  trie : Bytes → Option Bytes

/-- `struct BlockStorage { top_trie: HashMap<Vec<u8>, Vec<u8>>, children: HashMap<Vec<u8>, Child> }`. -/
structure BlockStorage where
  top_trie : Bytes → Option Bytes
  children : Bytes → Option Child

/-- `struct BlockState { storage: Option<Arc<BlockStorage>> }`. -/
structure BlockState where
  storage : Option BlockStorage

/-- `#[derive(Default)]` on `BlockState`: the storage slot starts empty. -/
def BlockState.default : BlockState :=
  { storage := none }

/-- `struct Storage { blocks: HashMap<H256, BlockState> }`. -/
structure Storage where
  blocks : H256 → Option BlockState

/-- `struct Block<'a> { entry: Entry<'a, H256, BlockState> }`: an entry is a
pending lookup into the registry at one hash; nothing has been inserted yet. -/
structure Block where
  registry : Storage
  hash : H256

/-- `Storage::empty()`. -/
def Storage.empty : Storage :=
  { blocks := fun _ => none }

/-- `Storage::block(&mut self, hash)`: builds the accessor from
`self.blocks.entry(hash.clone())`. The entry API performs no insertion. -/
def Storage.block (s : Storage) (hash : H256) : Block :=
  { registry := s, hash := hash }

/-- `Block::storage()`: if the entry is occupied, clone the `Arc` held in the
slot (if any); a vacant entry yields `None`. -/
def Block.storage (b : Block) : Option BlockStorage :=
  match b.registry.blocks b.hash with
  | some e => e.storage.map (fun s => s)
  | none => none

/-- `Block::set_storage(mut self, block_storage)`: `or_insert_with` inserts a
default `BlockState` when the entry is vacant, then the `storage` field is
overwritten with `Some(Arc::new(block_storage))`; the function returns
`Ok(())` unconditionally (the state-root check is a `TODO` in the source).
The updated registry is returned alongside the `Result`. -/
def Block.set_storage (b : Block) (block_storage : BlockStorage) :
    Except Unit Unit × Storage :=
  let prev : BlockState := (b.registry.blocks b.hash).getD BlockState.default
  let updated : BlockState := { prev with storage := some block_storage }
  (Except.ok (),
    { blocks := fun h => if h = b.hash then some updated else b.registry.blocks h })

/-- `Block::header()`: the body is `unimplemented!()`, a panic on every call,
modelled as `Except.error ()`; no code path returns an `Option` value. -/
def Block.header (_ : Block) : Except Unit (Option Unit) :=
  Except.error ()

/-- `BlockStorage::empty()`. -/
def BlockStorage.empty : BlockStorage :=
  { top_trie := fun _ => none, children := fun _ => none }

/-- `BlockStorage::insert(key, value)`: inserts into `top_trie` only,
replacing any previous value for the key. -/
def BlockStorage.insert (self : BlockStorage) (key value : Bytes) : BlockStorage :=
  { self with top_trie := fun k => if k = key then some value else self.top_trie k }

/-- The reserved key `b":code"` = `[0x3a, 0x63, 0x6f, 0x64, 0x65]`. -/
def CODE : Bytes := [58, 99, 111, 100, 101]

/-- `BlockStorage::code_key()`: looks up `b":code"` in `top_trie`. -/
def BlockStorage.code_key (self : BlockStorage) : Option Bytes :=
  self.top_trie CODE

/-- Modelled from the spec: the source declares `Child` but exposes no child
accessor, so construction-time insertion into a named child is taken from the
spec's words — writing a key into the named child's own mapping, creating the
child if absent, touching neither `top_trie` nor any other child. -/
def BlockStorage.child_insert (self : BlockStorage) (child key value : Bytes) :
    BlockStorage :=
  let c : Child := (self.children child).getD { trie := fun _ => none }
  { self with
    children := fun n =>
      if n = child then
        some { trie := fun k => if k = key then some value else c.trie k }
      else self.children n }

/-- Modelled from the spec: construction-time lookup of a key within a named
child, absent when the child does not exist. -/
def BlockStorage.child_get (self : BlockStorage) (child key : Bytes) : Option Bytes :=
  match self.children child with
  | some c => c.trie key
  | none => none

/-- A public-API step on the registry: `touch` is `block(h)` with the accessor
dropped unused; `install` is `block(h).set_storage(s)`. -/
inductive Op where
  | touch (h : H256)
  | install (h : H256) (s : BlockStorage)

/-- Whether an operation installs storage for the given hash. -/
def Op.installsTo : Op → H256 → Bool
  | Op.install h _, h2 => decide (h = h2)
  | Op.touch _, _ => false

/-- Effect of one public-API step on the registry. -/
def applyOp (st : Storage) : Op → Storage
  | Op.touch h => (st.block h).registry
  | Op.install h s => ((st.block h).set_storage s).2

/-- Running a sequence of public-API steps from a starting registry. -/
def runOps (st : Storage) : List Op → Storage
  | [] => st
  | op :: rest => runOps (applyOp st op) rest

/-- A `BlockStorage` built through the public builder API: `empty()` followed
by a sequence of `insert` calls. -/
def buildInserts (l : List (Bytes × Bytes)) : BlockStorage :=
  l.foldl (fun bs kv => bs.insert kv.1 kv.2) BlockStorage.empty

/-- The value of the last insert in the sequence whose key equals `key`,
absent when no insert used that key. -/
def lastValue (key : Bytes) (l : List (Bytes × Bytes)) : Option Bytes :=
  l.foldl (fun acc kv => if kv.1 = key then some kv.2 else acc) none

/-- Concrete hash 0, used in witnesses and counterexamples. -/
def h0 : H256 := ⟨0, by norm_num⟩

/-- Concrete hash 1, used in witnesses and counterexamples. -/
def h1 : H256 := ⟨1, by norm_num⟩

/-! ## Helper lemmas -/

/-- A registry step that does not install to `h` leaves the slot of `h`
unchanged. -/
theorem runOps_blocks_eq (ops : List Op) (st : Storage) (h : H256)
    (hno : ∀ op ∈ ops, op.installsTo h = false) :
    (runOps st ops).blocks h = st.blocks h := by
  induction ops generalizing st with
  | nil => rfl
  | cons op rest ih =>
    have hop : op.installsTo h = false := hno op (List.mem_cons_self _ _)
    have hrest : ∀ o ∈ rest, o.installsTo h = false :=
      fun o ho => hno o (List.mem_cons_of_mem _ ho)
    show (runOps (applyOp st op) rest).blocks h = st.blocks h
    rw [ih (applyOp st op) hrest]
    cases op with
    | touch h2 => rfl
    | install h2 s =>
      have hne : ¬ h = h2 := by
        intro hc
        simp [Op.installsTo, hc] at hop
      simp [applyOp, Block.set_storage, Storage.block, if_neg hne]

/-- Folding `insert` over a list changes only `top_trie`, pointwise like the
last-write-wins fold. -/
theorem foldl_insert_top (l : List (Bytes × Bytes)) (bs : BlockStorage) (k : Bytes) :
    (l.foldl (fun b kv => b.insert kv.1 kv.2) bs).top_trie k =
      l.foldl (fun acc kv => if kv.1 = k then some kv.2 else acc) (bs.top_trie k) := by
  induction l generalizing bs with
  | nil => rfl
  | cons kv rest ih =>
    simp only [List.foldl_cons]
    rw [ih]
    congr 1
    by_cases hk : kv.1 = k
    · simp [BlockStorage.insert, hk]
    · have hk2 : ¬ k = kv.1 := fun hc => hk hc.symm
      simp [BlockStorage.insert, hk, hk2]

/-- Folding `insert` over a list never touches `children`. -/
theorem foldl_insert_children (l : List (Bytes × Bytes)) (bs : BlockStorage) :
    (l.foldl (fun b kv => b.insert kv.1 kv.2) bs).children = bs.children := by
  induction l generalizing bs with
  | nil => rfl
  | cons kv rest ih =>
    simp only [List.foldl_cons]
    rw [ih]
    rfl

/-- Reading a block's storage only looks at the registry slot of its hash. -/
theorem block_storage_congr (st st2 : Storage) (h : H256)
    (hb : st.blocks h = st2.blocks h) :
    (st.block h).storage = (st2.block h).storage := by
  simp [Block.storage, Storage.block, hb]

/-- A hash whose registry slot is vacant has absent storage. -/
theorem storage_eq_none (st : Storage) (h : H256) (hb : st.blocks h = none) :
    (st.block h).storage = none := by
  simp [Block.storage, Storage.block, hb]

/-! ## Claims -/

/-- C1 (code bug evaluation): at a failing input — hash `h0` with a
`BlockStorage` whose derived state root cannot match `h0`'s expected root —
`set_storage` nevertheless returns `Ok(())` and installs the storage, instead
of failing with an integrity error and leaving the registry untouched; the
source's own `TODO: check proper hash of block_storage` marks the missing
validation. -/
theorem set_storage_ignores_integrity :
    ((Storage.empty.block h0).set_storage BlockStorage.empty).1 = Except.ok () ∧
      (((Storage.empty.block h0).set_storage BlockStorage.empty).2.block h0).storage
        = some BlockStorage.empty := by
  constructor
  · rfl
  · simp [Storage.block, Storage.empty, Block.set_storage, Block.storage]

/-- C2: if `block(h).set_storage(S)` succeeds then a subsequent
`block(h).storage()` on the resulting registry returns a present snapshot
whose content equals `S`. -/
theorem set_storage_then_storage_returns_snapshot (st : Storage) (h : H256)
    (S : BlockStorage)
    (hok : ((st.block h).set_storage S).1 = Except.ok ()) :
    ((((st.block h).set_storage S).2).block h).storage = some S := by
  simp [Storage.block, Block.set_storage, Block.storage]

/-- C2 witness: instantiated at the empty registry, hash `h0` and the empty
block storage. -/
theorem set_storage_then_storage_returns_snapshot_witness :
    ((Storage.empty.block h0).set_storage BlockStorage.empty).1 = Except.ok () ∧
      ((((Storage.empty.block h0).set_storage BlockStorage.empty).2).block h0).storage
        = some BlockStorage.empty :=
  ⟨rfl, set_storage_then_storage_returns_snapshot Storage.empty h0 BlockStorage.empty rfl⟩

/-- C3 counterexample: after the first `block(h0)` call on an empty registry
the registry still contains no entry for `h0` — the claimed
`Absent → KnownNoStorage` slot creation does not happen, because the entry
API defers insertion. -/
theorem block_creates_no_slot_cex :
    ((Storage.empty.block h0).registry.blocks h0).isSome = false := rfl

/-- C3 amended: `Storage::block(hash)` is total — it succeeds for every
256-bit hash — but is pure: the registry is unchanged by the call and no slot
is created; an entry for the hash first appears when `set_storage` is called,
which moves the slot directly from absent to known-with-storage. -/
theorem block_total_and_pure (st : Storage) (h : H256) :
    (st.block h).registry = st ∧
      (Storage.empty.block h).registry.blocks h = none ∧
      (((Storage.empty.block h).set_storage BlockStorage.empty).2).blocks h
        = some { storage := some BlockStorage.empty } := by
  refine ⟨rfl, rfl, ?_⟩
  simp [Storage.block, Storage.empty, Block.set_storage, BlockState.default]

/-- C4: for every hash `h` for which no public-API step ever installed
storage — touches and installs to other hashes allowed — querying `h`'s
storage on the registry built from `Storage::empty()` returns absent
(`none`), never a failure. -/
theorem never_installed_storage_absent (ops : List Op) (h : H256)
    (hno : ∀ op ∈ ops, op.installsTo h = false) :
    ((runOps Storage.empty ops).block h).storage = none := by
  have hb := runOps_blocks_eq ops Storage.empty h hno
  exact storage_eq_none _ h (hb.trans rfl)

/-- C4 witness: a trace that touches `h1` and installs to `h1` never installs
to `h0`, and `h0`'s storage is absent afterwards. -/
theorem never_installed_storage_absent_witness :
    (∀ op ∈ [Op.touch h1, Op.install h1 BlockStorage.empty],
        op.installsTo h0 = false) ∧
      ((runOps Storage.empty [Op.touch h1, Op.install h1 BlockStorage.empty]).block
            h0).storage = none := by
  have hno : ∀ op ∈ [Op.touch h1, Op.install h1 BlockStorage.empty],
      op.installsTo h0 = false := by
    intro op hop
    rcases List.mem_cons.mp hop with h | hop
    · subst h; rfl
    · rcases List.mem_cons.mp hop with h | hop
      · subst h
        simp [Op.installsTo, h0, h1, Fin.ext_iff]
      · cases hop
  exact ⟨hno, never_installed_storage_absent _ h0 hno⟩

/-- C5: a `BlockStorage` built by `empty()` plus any sequence of `insert`
calls has `code_key()` equal to the value of the last insert whose key was
`b":code"`, and absent when no insert used that key. -/
theorem code_key_last_insert (l : List (Bytes × Bytes)) :
    (buildInserts l).code_key = lastValue CODE l := by
  show (buildInserts l).top_trie CODE = lastValue CODE l
  rw [buildInserts, foldl_insert_top]
  rfl

/-- C6 counterexample: `Block::header()` fails (panics via `unimplemented!`)
on a concrete call, so it is not a total operation returning a header or
none. -/
theorem header_always_fails_cex :
    ((Storage.empty.block h0).header).isOk = false := rfl

/-- C6 amended: `Block::header()` is not yet implemented: every call fails
(the body is an unconditional `unimplemented!()` panic) rather than returning
a header or a silent `None` — the not-yet-wired state is thus kept distinct
from a permanent unconditional absence. -/
theorem header_unimplemented_fails (b : Block) :
    b.header = Except.error () := rfl

/-- C7: copy-on-write / frame isolation, as observable in the embedding:
installing storage for `h2` leaves the registry entry of every other hash `h`
unchanged, so the snapshot queried at `h` before the install equals the one
queried after; the snapshot value itself, once obtained, is an immutable
value that later `insert` calls on separately built `BlockStorage` values
cannot alter (last conjunct: a mutated copy is a distinct value whose
installation at `h2` still leaves `h`'s slot unchanged). -/
theorem set_storage_frame_isolation (st : Storage) (h h2 : H256)
    (S2 : BlockStorage) (hne : h ≠ h2) :
    ((((st.block h2).set_storage S2).2).block h).storage = (st.block h).storage ∧
      (((st.block h2).set_storage S2).2).blocks h = st.blocks h ∧
      (∀ k v : Bytes,
        ((((st.block h2).set_storage (S2.insert k v)).2).block h).storage
          = (st.block h).storage) := by
  have hb : ∀ S : BlockStorage,
      (((st.block h2).set_storage S).2).blocks h = st.blocks h := by
    intro S
    simp [Block.set_storage, Storage.block, if_neg hne]
  refine ⟨?_, hb S2, ?_⟩
  · exact block_storage_congr _ _ h (hb S2)
  · intro k v
    exact block_storage_congr _ _ h (hb (S2.insert k v))

/-- C7 witness: instantiated at the empty registry with the distinct hashes
`h0` and `h1`. -/
theorem set_storage_frame_isolation_witness :
    h0 ≠ h1 ∧
      (((((Storage.empty.block h1).set_storage BlockStorage.empty).2).block
            h0).storage = (Storage.empty.block h0).storage ∧
        (((Storage.empty.block h1).set_storage BlockStorage.empty).2).blocks h0
          = Storage.empty.blocks h0 ∧
        (∀ k v : Bytes,
          ((((Storage.empty.block h1).set_storage
                  (BlockStorage.empty.insert k v)).2).block h0).storage
            = (Storage.empty.block h0).storage)) := by
  have hne : h0 ≠ h1 := by simp [h0, h1, Fin.ext_iff]
  exact ⟨hne, set_storage_frame_isolation Storage.empty h0 h1 BlockStorage.empty hne⟩

/-- C8 (child namespaces, spec-modelled accessors): a value inserted under
key `k` in child `c1` is invisible to a lookup of `k` in a distinct child
`c2` and to the top-level mapping, and a top-level insert of `k` is invisible
in every child. -/
theorem child_trie_isolation (bs : BlockStorage) (c1 c2 k v : Bytes)
    (hne : c1 ≠ c2) :
    (bs.child_insert c1 k v).child_get c2 k = bs.child_get c2 k ∧
      (bs.child_insert c1 k v).top_trie k = bs.top_trie k ∧
      (∀ c : Bytes, (bs.insert k v).child_get c k = bs.child_get c k) := by
  have hne2 : ¬ c2 = c1 := fun hc => hne hc.symm
  refine ⟨?_, rfl, ?_⟩
  · simp [BlockStorage.child_insert, BlockStorage.child_get, if_neg hne2]
  · intro c
    simp [BlockStorage.insert, BlockStorage.child_get]

/-- C8 witness: instantiated at the empty block storage with the distinct
child names `[0]` and `[1]`. -/
theorem child_trie_isolation_witness :
    ([0] : Bytes) ≠ [1] ∧
      ((BlockStorage.empty.child_insert [0] [] []).child_get [1] []
          = BlockStorage.empty.child_get [1] [] ∧
        (BlockStorage.empty.child_insert [0] [] []).top_trie []
          = BlockStorage.empty.top_trie [] ∧
        (∀ c : Bytes,
          (BlockStorage.empty.insert [] []).child_get c []
            = BlockStorage.empty.child_get c [])) := by
  have hne : ([0] : Bytes) ≠ [1] := by decide
  exact ⟨hne, child_trie_isolation BlockStorage.empty [0] [1] [] [] hne⟩

/-- C9: `set_storage` performs no validation and can never fail — it returns
`Ok(())` for every hash and every storage — and it installs unconditionally:
a vacant slot is created holding the storage (absent to known-with-storage
directly), and a second install replaces the first (last-write-wins). -/
theorem set_storage_unconditional_install (st : Storage) (h : H256)
    (S S2 : BlockStorage) :
    ((st.block h).set_storage S).1 = Except.ok () ∧
      (((st.block h).set_storage S).2).blocks h = some { storage := some S } ∧
      ((((st.block h).set_storage S).2).block h).storage = some S ∧
      ((((((st.block h).set_storage S).2).block h).set_storage S2).2.block
            h).storage = some S2 := by
  refine ⟨rfl, ?_, ?_, ?_⟩ <;>
    simp [Storage.block, Block.set_storage, Block.storage, BlockState.default]

/-- C10: `insert` writes only to the top-level mapping and no public builder
operation touches `children`, so every `BlockStorage` reachable from
`BlockStorage::empty()` through the public API has an empty children
mapping. -/
theorem children_never_touched (l : List (Bytes × Bytes)) (n : Bytes) :
    (buildInserts l).children n = none := by
  rw [buildInserts, foldl_insert_children]
  rfl

end AvailLightStorage
